import Mathlib

/-
Verification of the RTL-SDR Fosphor spectrum-analyzer launch script
(src/rtlsdr_fosphor.py) against its natural-language specification.

The script is pure orchestration: it probes optional capabilities (the
fosphor GPU visualizer, the osmosdr radio-source driver), enumerates
devices, builds a flowgraph (one source, one or two sinks), and manages
the process lifecycle.  We embed it shallowly as trace-producing
functions: every call into an external collaborator (constructors,
setters, connect, start/stop/wait, process exit) is recorded as an
`Event`, and the outcomes of the fallible external calls are supplied by
an `Env` oracle.  Console output (print statements) is not modelled,
except that a fatal path's diagnostic print is recorded as `Event.diag`.
The point in a Python `try:` block at which an exception is raised is
abstracted: a block either completes or its `except` branch runs.
-/

/-- Outcome of probing one device index in `detect_rtlsdr_devices`:
the `source(args=f"rtl=i")` call succeeds, raises with the
"Failed to open rtlsdr device" signature, or raises with any other
message. -/
inductive ProbeResult where
  | ok
  | notFound
  | otherError
deriving DecidableEq, Repr

/-- Identifiers for the flowgraph blocks the script creates. -/
inductive Block where
  | rtlsdrSource
  | fosphorQtSink
  | fosphorGlfwSink
  | qtguiFreqSink
  | qtguiWaterfallSink
deriving DecidableEq, Repr

/-- Identifiers for the Qt widgets the script can embed into the main
window's vertical layout. -/
inductive Widget where
  | fosphorWin
  | freqSinkWin
  | waterfallSinkWin
deriving DecidableEq, Repr

/-- Window functions passed to the qtgui sink constructors; the script
only ever uses `window.WIN_BLACKMAN_hARRIS`. -/
inductive WinType where
  | blackmanHarris
deriving DecidableEq, Repr

/-- Observable actions of the script: each external call it makes, in
order.  Numeric configuration values are rationals (the script never
computes with them, it only passes them through). -/
inductive Event where
  | probeDevice (i : Nat)
  | sourceCreate (deviceIndex : Nat)
  | setSampleRate (v : ℚ)
  | setCenterFreq (v : ℚ)
  | setFreqCorr (v : ℚ)
  | setGain (v : ℚ)
  | setIfGain (v : ℚ)
  | setBbGain (v : ℚ)
  | setAntenna (s : String)
  | setBandwidth (v : ℚ)
  | qtSinkCreate
  | glfwSinkCreate
  | setFrequencyRange (b : Block) (f r : ℚ)
  | freqSinkCreate (fftSize : Nat) (w : WinType) (fc bw : ℚ) (title : String) (nin : Nat)
  | waterfallSinkCreate (fftSize : Nat) (w : WinType) (fc bw : ℚ) (title : String) (nin : Nat)
  | setUpdateTime (b : Block) (t : ℚ)
  | setYAxis (lo hi : ℚ)
  | setYLabel (label unit : String)
  | enableAutoscale (b : Bool)
  | enableGrid (blk : Block) (b : Bool)
  | setFftAverage (v : ℚ)
  | enableAxisLabels (blk : Block) (b : Bool)
  | enableControlPanel (b : Bool)
  | setIntensityRange (lo hi : ℚ)
  | addWidget (w : Widget)
  | connect (src snk : Block)
  | start
  | stop
  | wait
  | diag
  | exitProc (code : Nat)
deriving DecidableEq, Repr

/-- Oracle for the outcomes of the script's fallible external calls:
which imports succeed, which sink constructions succeed, and what each
device-index probe returns. -/
structure Env where
  fosphorAvailable : Bool
  osmosdrAvailable : Bool
  sourceOk : Bool
  qtSinkOk : Bool
  glfwSinkOk : Bool
  stdOk : Bool
  probe : Nat → ProbeResult

/-- Radio Configuration: the four values `RtlsdrFosphor.__init__`
receives (center frequency, sample rate, gain, device index). -/
structure Config where
  center_freq : ℚ
  samp_rate : ℚ
  gain : ℚ
  device_index : Nat

/-- Parsed command line of `main`. -/
structure Args where
  freq : ℚ
  samp_rate : ℚ
  gain : ℚ
  device : Nat
  detect : Bool

/-- Label the enumerator records for a found device
(`device_name = f"RTL-SDR #{i}"`). -/
def deviceName (i : Nat) : String :=
  "RTL-SDR #" ++ toString i

/-- Loop body of `detect_rtlsdr_devices`, with explicit fuel (the
source iterates `for i in range(10)`).  From index `i` with `n`
iterations left it returns the recorded `(index, label)` pairs and the
list of indices actually probed.  `ok` records the device and
continues; `notFound` (the "Failed to open rtlsdr device" signature)
breaks out of the loop; `otherError` logs and continues. -/
def detectFrom (env : Env) : Nat → Nat → List (Nat × String) × List Nat
  | _, 0 => ([], [])
  | i, n + 1 =>
    match env.probe i with
    | ProbeResult.ok =>
        let r := detectFrom env (i + 1) n
        ((i, deviceName i) :: r.1, i :: r.2)
    | ProbeResult.notFound => ([], [i])
    | ProbeResult.otherError =>
        let r := detectFrom env (i + 1) n
        (r.1, i :: r.2)

/-- Embedding of `detect_rtlsdr_devices`: returns the devices found and
the indices probed, starting at index 0 with the source's bound of 10. -/
def detect_rtlsdr_devices (env : Env) : List (Nat × String) × List Nat :=
  detectFrom env 0 10

/-- Trace of the success path of `setup_standard_visualization`: the
two qtgui sink constructions and their configuration calls, the two
`addWidget` embeddings, and the two `connect` calls, in source order. -/
def standardTrace (cfg : Config) : List Event :=
  [ Event.freqSinkCreate 2048 WinType.blackmanHarris cfg.center_freq cfg.samp_rate
      ("RTL-SDR Spectrum") 1,
    Event.setUpdateTime Block.qtguiFreqSink (1/20),
    Event.setYAxis (-140) 10,
    Event.setYLabel ("Relative Gain") ("dB"),
    Event.enableAutoscale false,
    Event.enableGrid Block.qtguiFreqSink true,
    Event.setFftAverage (1/5),
    Event.enableAxisLabels Block.qtguiFreqSink true,
    Event.enableControlPanel true,
    Event.waterfallSinkCreate 2048 WinType.blackmanHarris cfg.center_freq cfg.samp_rate
      ("RTL-SDR Waterfall") 1,
    Event.setUpdateTime Block.qtguiWaterfallSink (1/20),
    Event.enableGrid Block.qtguiWaterfallSink true,
    Event.enableAxisLabels Block.qtguiWaterfallSink true,
    Event.setIntensityRange (-140) 10,
    Event.addWidget Widget.freqSinkWin,
    Event.addWidget Widget.waterfallSinkWin,
    Event.connect Block.rtlsdrSource Block.qtguiFreqSink,
    Event.connect Block.rtlsdrSource Block.qtguiWaterfallSink ]

/-- Embedding of `setup_standard_visualization`.  On failure anywhere in
its `try` block the `except` branch prints a diagnostic and calls
`sys.exit(1)`; the Bool component is `false` when the process exited. -/
def setup_standard_visualization (env : Env) (cfg : Config) : List Event × Bool :=
  if env.stdOk then (standardTrace cfg, true)
  else ([Event.diag, Event.exitProc 1], false)

/-- Embedding of `setup_fosphor_visualization`: try the Qt sink; on
failure try the GLFW sink; on failure of that too, fall back to
`setup_standard_visualization`.  Note that the GLFW branch connects the
sink but never wraps or embeds a widget. -/
def setup_fosphor_visualization (env : Env) (cfg : Config) : List Event × Bool :=
  if env.qtSinkOk then
    ([ Event.qtSinkCreate,
       Event.setFrequencyRange Block.fosphorQtSink cfg.center_freq cfg.samp_rate,
       Event.addWidget Widget.fosphorWin,
       Event.connect Block.rtlsdrSource Block.fosphorQtSink ], true)
  else if env.glfwSinkOk then
    ([ Event.qtSinkCreate,
       Event.glfwSinkCreate,
       Event.setFrequencyRange Block.fosphorGlfwSink cfg.center_freq cfg.samp_rate,
       Event.connect Block.rtlsdrSource Block.fosphorGlfwSink ], true)
  else
    let r := setup_standard_visualization env cfg
    (Event.qtSinkCreate :: Event.glfwSinkCreate :: r.1, r.2)

/-- Trace of the source-creation block of `RtlsdrFosphor.__init__`:
the `source(args=f"rtl=...")` call and the eight setter calls, in
source order, with the values the source passes. -/
def sourceTrace (cfg : Config) : List Event :=
  [ Event.sourceCreate cfg.device_index,
    Event.setSampleRate cfg.samp_rate,
    Event.setCenterFreq cfg.center_freq,
    Event.setFreqCorr 0,
    Event.setGain cfg.gain,
    Event.setIfGain 20,
    Event.setBbGain 20,
    Event.setAntenna (""),
    Event.setBandwidth 0 ]

/-- Embedding of `RtlsdrFosphor.__init__`: create and configure the
source (on failure: diagnostic and `sys.exit(1)`), then dispatch on
`use_fosphor` to one of the two visualization setups.  The Bool
component is `false` when the process exited during construction. -/
def rtlsdr_fosphor_init (env : Env) (useFosphor : Bool) (cfg : Config) :
    List Event × Bool :=
  if env.sourceOk then
    let r := if useFosphor then setup_fosphor_visualization env cfg
             else setup_standard_visualization env cfg
    (sourceTrace cfg ++ r.1, r.2)
  else
    ([Event.sourceCreate cfg.device_index, Event.diag, Event.exitProc 1], false)

/-- Embedding of the module-level import block: the fosphor import is
optional (its failure only clears `use_fosphor`); the osmosdr import is
required (its failure prints a diagnostic and calls `sys.exit(1)`).
Returns the resulting `use_fosphor` flag, or the exit code. -/
def import_block (env : Env) : Except Nat Bool :=
  if env.osmosdrAvailable then Except.ok env.fosphorAvailable
  else Except.error 1

/-- Embedding of `main` (named `mainEntry`, since Lean reserves `main`): after the import block, either run `--detect`
mode (enumerate, print, `sys.exit(0)`) or construct the flowgraph,
start it, run the Qt event loop, and on return run the shutdown
sequence (`tb.stop(); tb.wait(); sys.exit(0)`). -/
def mainEntry (env : Env) (a : Args) : List Event :=
  match import_block env with
  | Except.error c => [Event.diag, Event.exitProc c]
  | Except.ok useFosphor =>
    if a.detect then
      ((detect_rtlsdr_devices env).2.map Event.probeDevice) ++ [Event.exitProc 0]
    else
      let r := rtlsdr_fosphor_init env useFosphor
        ⟨a.freq, a.samp_rate, a.gain, a.device⟩
      if r.2 then r.1 ++ [Event.start, Event.stop, Event.wait, Event.exitProc 0]
      else r.1

/-- Process state for the signal-handling model: whether the pipeline
is running, the exit status once `sys.exit` has been called, and the
trace of shutdown events performed so far. -/
structure ProcState where
  pipelineActive : Bool
  exited : Option Nat
  trace : List Event
deriving DecidableEq, Repr

/-- Embedding of `sig_handler`: unconditionally `tb.stop()`,
`tb.wait()`, `sys.exit(0)`.  The handler body is modelled as one atomic
step (the spec's concurrency model treats it as a short non-reentrant
sequence). -/
def sig_handler (s : ProcState) : ProcState :=
  ⟨false, some 0, s.trace ++ [Event.stop, Event.wait, Event.exitProc 0]⟩

/-- Delivery of SIGINT or SIGTERM to the process: a process that has
already exited receives nothing; otherwise the registered `sig_handler`
runs. -/
def deliver_signal (s : ProcState) : ProcState :=
  if s.exited.isSome then s else sig_handler s

/-- The Running state of the lifecycle state machine: pipeline started,
process not exited, with `tr` the events performed so far. -/
def runningState (tr : List Event) : ProcState :=
  ⟨true, none, tr⟩

/-- Discriminator: is this event a source-block construction? -/
def isSourceCreate : Event → Bool
  | Event.sourceCreate _ => true
  | _ => false

/-- Discriminator: is this event a qtgui frequency-sink construction? -/
def isFreqSinkCreate : Event → Bool
  | Event.freqSinkCreate _ _ _ _ _ _ => true
  | _ => false

/-- Discriminator: is this event a qtgui waterfall-sink construction? -/
def isWaterfallSinkCreate : Event → Bool
  | Event.waterfallSinkCreate _ _ _ _ _ _ => true
  | _ => false

/-- Discriminator: is this event an `addWidget` embedding into the main
window layout? -/
def isAddWidget : Event → Bool
  | Event.addWidget _ => true
  | _ => false

/-- Concrete Radio Configuration from the spec scenario:
freq 100e6, sample rate 2e6, gain 20, device 0. -/
def cfg0 : Config := ⟨100000000, 2000000, 20, 0⟩

/-- Probe oracle with no devices attached. -/
def probeNone : Nat → ProbeResult := fun _ => ProbeResult.notFound

/-- Environment in which every external call succeeds. -/
def envAll : Env := ⟨true, true, true, true, true, true, probeNone⟩

/-- One step of the enumerator always probes its starting index. -/
lemma mem_detectFrom_self (env : Env) (s n : Nat) (hn : 0 < n) :
    s ∈ (detectFrom env s n).2 := by
  obtain ⟨m, rfl⟩ : ∃ m, n = m + 1 := ⟨n - 1, by omega⟩
  cases hp : env.probe s <;> simp [detectFrom, hp]

/-- When the probe succeeds at every index in `[s, s+k)` and reports
"not found" at `s + k`, the enumerator starting at `s` with more than
`k` iterations of fuel records exactly the devices at `[s, s+k)` and
probes exactly `[s, s+k]`. -/
lemma detectFrom_ok_run (env : Env) :
    ∀ k n s, k < n → (∀ i, i < k → env.probe (s + i) = ProbeResult.ok) →
    env.probe (s + k) = ProbeResult.notFound →
    detectFrom env s n =
      ((List.range' s k).map (fun j => (j, deviceName j)), List.range' s (k + 1)) := by
  intro k
  induction k with
  | zero =>
    intro n s hk h hnf
    obtain ⟨m, rfl⟩ : ∃ m, n = m + 1 := ⟨n - 1, by omega⟩
    rw [show s + 0 = s from rfl] at hnf
    simp [detectFrom, hnf, List.range'_succ]
  | succ k ih =>
    intro n s hk h hnf
    obtain ⟨m, rfl⟩ : ∃ m, n = m + 1 := ⟨n - 1, by omega⟩
    have h0 : env.probe s = ProbeResult.ok := by
      have := h 0 (Nat.succ_pos k)
      simpa using this
    have ihh := ih m (s + 1) (by omega)
      (fun i hi => by
        have hx := h (i + 1) (by omega)
        rwa [show s + (i + 1) = s + 1 + i by omega] at hx)
      (by rwa [show s + (k + 1) = s + 1 + k by omega] at hnf)
    simp [detectFrom, h0, ihh, List.range'_succ]

/-- As long as no index in `[s, s+i]` reports "not found", the
enumerator with enough fuel goes on to probe index `s + i + 1`. -/
lemma detectFrom_continues (env : Env) :
    ∀ i s n, i + 1 < n → (∀ j, j ≤ i → env.probe (s + j) ≠ ProbeResult.notFound) →
    s + i + 1 ∈ (detectFrom env s n).2 := by
  intro i
  induction i with
  | zero =>
    intro s n hn h
    obtain ⟨m, rfl⟩ : ∃ m, n = m + 1 := ⟨n - 1, by omega⟩
    have h0 : env.probe s ≠ ProbeResult.notFound := by
      have := h 0 (Nat.le_refl 0)
      simpa using this
    have hm : s + 1 ∈ (detectFrom env (s + 1) m).2 :=
      mem_detectFrom_self env (s + 1) m (by omega)
    cases hp : env.probe s with
    | ok => simp [detectFrom, hp]; exact hm
    | notFound => exact absurd hp h0
    | otherError => simp [detectFrom, hp]; exact hm
  | succ i ih =>
    intro s n hn h
    obtain ⟨m, rfl⟩ : ∃ m, n = m + 1 := ⟨n - 1, by omega⟩
    have h0 : env.probe s ≠ ProbeResult.notFound := by
      have := h 0 (Nat.zero_le (i + 1))
      simpa using this
    have hm : s + 1 + i + 1 ∈ (detectFrom env (s + 1) m).2 :=
      ih (s + 1) m (by omega)
        (fun j hj => by
          have hx := h (j + 1) (by omega)
          rwa [show s + (j + 1) = s + 1 + j by omega] at hx)
    have he : s + (i + 1) + 1 = s + 1 + i + 1 := by omega
    cases hp : env.probe s with
    | ok => simp [detectFrom, hp]; right; rw [he] at *; exact hm
    | notFound => exact absurd hp h0
    | otherError => simp [detectFrom, hp]; right; rw [he] at *; exact hm

/-- C3: if opening succeeds at every index below `k` and fails at `k`
with the "device not found" signature (`k` within the probe bound of
10), `detect_rtlsdr_devices` returns exactly the devices at indices
`[0, k)` in order and probes exactly indices `0..k`, never touching
`k+1`; and a failure with any other signature at a reached index `i`
makes enumeration continue to index `i+1`. -/
theorem C3_device_enumeration :
    (∀ (env : Env) (k : Nat), k < 10 →
      (∀ i, i < k → env.probe i = ProbeResult.ok) →
      env.probe k = ProbeResult.notFound →
      (detect_rtlsdr_devices env).1 =
        (List.range k).map (fun i => (i, deviceName i)) ∧
      (detect_rtlsdr_devices env).2 = List.range (k + 1)) ∧
    (∀ (env : Env) (i : Nat), i + 1 < 10 →
      (∀ j, j ≤ i → env.probe j ≠ ProbeResult.notFound) →
      (i + 1) ∈ (detect_rtlsdr_devices env).2) := by
  constructor
  · intro env k hk h hnf
    have hr := detectFrom_ok_run env k 10 0 hk
      (fun i hi => by simpa using h i hi) (by simpa using hnf)
    rw [detect_rtlsdr_devices, hr]
    constructor
    · rw [List.range_eq_range']
    · rw [List.range_eq_range']
  · intro env i hi h
    have hr := detectFrom_continues env i 0 10 hi
      (fun j hj => by simpa using h j hj)
    simpa using hr

/-- Concrete probe oracle for the C3 witness: devices at indices 0 and
1, "not found" at index 2. -/
def probeTwo : Nat → ProbeResult := fun i =>
  if i < 2 then ProbeResult.ok
  else if i = 2 then ProbeResult.notFound
  else ProbeResult.otherError

/-- Environment with two attached devices for the C3 witness. -/
def envTwo : Env := ⟨true, true, true, true, true, true, probeTwo⟩

/-- Witness for C3 at a concrete probe oracle with two devices. -/
theorem C3_device_enumeration_witness :
    (detect_rtlsdr_devices envTwo).1 =
      (List.range 2).map (fun i => (i, deviceName i)) ∧
    (detect_rtlsdr_devices envTwo).2 = List.range 3 := by
  have h := C3_device_enumeration.1 envTwo 2 (by omega)
    (fun i hi => by
      have : i = 0 ∨ i = 1 := by omega
      cases this with
      | inl h0 => rw [h0]; rfl
      | inr h1 => rw [h1]; rfl)
    (by rfl)
  exact h

/-- C4: delivering an interrupt or termination signal in the Running
state performs pipeline stop, then pipeline wait, then process exit
with status 0, in that order, exactly once; a second delivery finds the
process exited and performs no additional work. -/
theorem C4_signal_shutdown (tr : List Event) :
    (deliver_signal (runningState tr)).trace =
      tr ++ [Event.stop, Event.wait, Event.exitProc 0] ∧
    (deliver_signal (runningState tr)).exited = some 0 ∧
    deliver_signal (deliver_signal (runningState tr)) =
      deliver_signal (runningState tr) := by
  refine ⟨?_, ?_, ?_⟩ <;> simp [deliver_signal, runningState, sig_handler]

/-- C8: on the standard visualization path both conventional sinks are
constructed with FFT size 2048, a Blackman-Harris window, the
configured center frequency and sample rate, the fixed 0.05s refresh
interval, vertical range -140 to 10 (y axis for the FFT display,
intensity range for the waterfall), grid and axis labels enabled, and
the FFT display additionally with exponential averaging factor 0.2. -/
theorem C8_standard_sink_config (env : Env) (cfg : Config)
    (hstd : env.stdOk = true) :
    Event.freqSinkCreate 2048 WinType.blackmanHarris cfg.center_freq cfg.samp_rate
        ("RTL-SDR Spectrum") 1 ∈ (setup_standard_visualization env cfg).1 ∧
    Event.waterfallSinkCreate 2048 WinType.blackmanHarris cfg.center_freq cfg.samp_rate
        ("RTL-SDR Waterfall") 1 ∈ (setup_standard_visualization env cfg).1 ∧
    Event.setUpdateTime Block.qtguiFreqSink (1/20) ∈
      (setup_standard_visualization env cfg).1 ∧
    Event.setUpdateTime Block.qtguiWaterfallSink (1/20) ∈
      (setup_standard_visualization env cfg).1 ∧
    Event.setYAxis (-140) 10 ∈ (setup_standard_visualization env cfg).1 ∧
    Event.setIntensityRange (-140) 10 ∈ (setup_standard_visualization env cfg).1 ∧
    Event.enableGrid Block.qtguiFreqSink true ∈
      (setup_standard_visualization env cfg).1 ∧
    Event.enableGrid Block.qtguiWaterfallSink true ∈
      (setup_standard_visualization env cfg).1 ∧
    Event.enableAxisLabels Block.qtguiFreqSink true ∈
      (setup_standard_visualization env cfg).1 ∧
    Event.enableAxisLabels Block.qtguiWaterfallSink true ∈
      (setup_standard_visualization env cfg).1 ∧
    Event.setFftAverage (1/5) ∈ (setup_standard_visualization env cfg).1 := by
  simp [setup_standard_visualization, hstd, standardTrace]

/-- Witness for C8 at the spec's concrete configuration in the
all-capabilities environment. -/
theorem C8_standard_sink_config_witness :
    Event.freqSinkCreate 2048 WinType.blackmanHarris cfg0.center_freq cfg0.samp_rate
        ("RTL-SDR Spectrum") 1 ∈ (setup_standard_visualization envAll cfg0).1 ∧
    Event.waterfallSinkCreate 2048 WinType.blackmanHarris cfg0.center_freq cfg0.samp_rate
        ("RTL-SDR Waterfall") 1 ∈ (setup_standard_visualization envAll cfg0).1 ∧
    Event.setUpdateTime Block.qtguiFreqSink (1/20) ∈
      (setup_standard_visualization envAll cfg0).1 ∧
    Event.setUpdateTime Block.qtguiWaterfallSink (1/20) ∈
      (setup_standard_visualization envAll cfg0).1 ∧
    Event.setYAxis (-140) 10 ∈ (setup_standard_visualization envAll cfg0).1 ∧
    Event.setIntensityRange (-140) 10 ∈ (setup_standard_visualization envAll cfg0).1 ∧
    Event.enableGrid Block.qtguiFreqSink true ∈
      (setup_standard_visualization envAll cfg0).1 ∧
    Event.enableGrid Block.qtguiWaterfallSink true ∈
      (setup_standard_visualization envAll cfg0).1 ∧
    Event.enableAxisLabels Block.qtguiFreqSink true ∈
      (setup_standard_visualization envAll cfg0).1 ∧
    Event.enableAxisLabels Block.qtguiWaterfallSink true ∈
      (setup_standard_visualization envAll cfg0).1 ∧
    Event.setFftAverage (1/5) ∈ (setup_standard_visualization envAll cfg0).1 :=
  C8_standard_sink_config envAll cfg0 rfl

/-- C10: whatever the Radio Configuration, source construction also
issues the fixed setter calls `set_freq_corr(0)`, `set_if_gain(20)`,
`set_bb_gain(20)`, `set_antenna('')` and `set_bandwidth(0)`, none of
which depend on a command-line option. -/
theorem C10_fixed_source_setters (env : Env) (useFosphor : Bool) (cfg : Config)
    (hs : env.sourceOk = true) :
    Event.setFreqCorr 0 ∈ (rtlsdr_fosphor_init env useFosphor cfg).1 ∧
    Event.setIfGain 20 ∈ (rtlsdr_fosphor_init env useFosphor cfg).1 ∧
    Event.setBbGain 20 ∈ (rtlsdr_fosphor_init env useFosphor cfg).1 ∧
    Event.setAntenna ("") ∈ (rtlsdr_fosphor_init env useFosphor cfg).1 ∧
    Event.setBandwidth 0 ∈ (rtlsdr_fosphor_init env useFosphor cfg).1 := by
  have hsub : ∀ e ∈ sourceTrace cfg, e ∈ (rtlsdr_fosphor_init env useFosphor cfg).1 := by
    intro e he
    simp only [rtlsdr_fosphor_init, hs, if_true, List.mem_append]
    exact Or.inl he
  refine ⟨hsub _ ?_, hsub _ ?_, hsub _ ?_, hsub _ ?_, hsub _ ?_⟩ <;>
    simp [sourceTrace]

/-- Witness for C10 at the spec's concrete configuration. -/
theorem C10_fixed_source_setters_witness :
    Event.setFreqCorr 0 ∈ (rtlsdr_fosphor_init envAll true cfg0).1 ∧
    Event.setIfGain 20 ∈ (rtlsdr_fosphor_init envAll true cfg0).1 ∧
    Event.setBbGain 20 ∈ (rtlsdr_fosphor_init envAll true cfg0).1 ∧
    Event.setAntenna ("") ∈ (rtlsdr_fosphor_init envAll true cfg0).1 ∧
    Event.setBandwidth 0 ∈ (rtlsdr_fosphor_init envAll true cfg0).1 :=
  C10_fixed_source_setters envAll true cfg0 rfl

/-- Parsed command line requesting `--detect` with the default radio
options. -/
def argsDetect : Args := ⟨100000000, 2000000, 20, 0, true⟩

/-- Parsed command line with the default radio options and `--detect`
absent. -/
def argsRun : Args := ⟨100000000, 2000000, 20, 0, false⟩

/-- C5: with `--detect` on the command line, `main` probes devices and
exits with status 0; its trace holds nothing but probe events and the
final exit, so the flowgraph is never constructed and the pipeline is
never started or stopped, whether or not any device was found. -/
theorem C5_detect_mode (env : Env) (a : Args)
    (ho : env.osmosdrAvailable = true) (hd : a.detect = true) :
    mainEntry env a =
      ((detect_rtlsdr_devices env).2.map Event.probeDevice) ++ [Event.exitProc 0] ∧
    (∀ e ∈ mainEntry env a,
      (∃ i, e = Event.probeDevice i) ∨ e = Event.exitProc 0) ∧
    Event.start ∉ mainEntry env a ∧
    Event.stop ∉ mainEntry env a ∧
    (∀ d, Event.sourceCreate d ∉ mainEntry env a) := by
  have hm : mainEntry env a =
      ((detect_rtlsdr_devices env).2.map Event.probeDevice) ++ [Event.exitProc 0] := by
    simp [mainEntry, import_block, ho, hd]
  refine ⟨hm, ?_, ?_, ?_, ?_⟩
  · intro e he
    rw [hm] at he
    rcases List.mem_append.mp he with h | h
    · rcases List.mem_map.mp h with ⟨i, hi, rfl⟩
      exact Or.inl ⟨i, rfl⟩
    · right
      simpa using h
  · rw [hm]
    simp
  · rw [hm]
    simp
  · intro d
    rw [hm]
    simp

/-- Witness for C5: a detect-mode run in an environment with no
attached devices still exits 0 and never starts the pipeline. -/
theorem C5_detect_mode_witness :
    mainEntry envAll argsDetect =
      ((detect_rtlsdr_devices envAll).2.map Event.probeDevice) ++ [Event.exitProc 0] ∧
    Event.start ∉ mainEntry envAll argsDetect ∧
    Event.stop ∉ mainEntry envAll argsDetect :=
  ⟨(C5_detect_mode envAll argsDetect rfl rfl).1,
   (C5_detect_mode envAll argsDetect rfl rfl).2.2.1,
   (C5_detect_mode envAll argsDetect rfl rfl).2.2.2.1⟩

/-- Environment in which the required osmosdr driver import fails. -/
def envNoOsmosdr : Env := ⟨true, false, true, true, true, true, probeNone⟩

/-- Environment in which only the optional fosphor import fails. -/
def envNoFosphor : Env := ⟨false, true, true, true, true, true, probeNone⟩

/-- C9: a failed radio-source driver import is fatal — the whole run is
just the diagnostic and exit status 1, with no fallback; a failed GPU
visualizer import is not — the import block returns normally with
`use_fosphor` cleared, and flowgraph construction then completes on the
standard path without exiting and without touching either GPU sink
constructor. -/
theorem C9_required_vs_optional_capability :
    (∀ (env : Env) (a : Args), env.osmosdrAvailable = false →
      mainEntry env a = [Event.diag, Event.exitProc 1]) ∧
    (∀ (env : Env), env.osmosdrAvailable = true →
      import_block env = Except.ok env.fosphorAvailable) ∧
    (∀ (env : Env) (cfg : Config), env.fosphorAvailable = false →
      env.sourceOk = true → env.stdOk = true →
      (rtlsdr_fosphor_init env env.fosphorAvailable cfg).2 = true ∧
      Event.exitProc 1 ∉ (rtlsdr_fosphor_init env env.fosphorAvailable cfg).1 ∧
      Event.qtSinkCreate ∉ (rtlsdr_fosphor_init env env.fosphorAvailable cfg).1 ∧
      Event.glfwSinkCreate ∉ (rtlsdr_fosphor_init env env.fosphorAvailable cfg).1 ∧
      Event.freqSinkCreate 2048 WinType.blackmanHarris cfg.center_freq cfg.samp_rate
        ("RTL-SDR Spectrum") 1 ∈ (rtlsdr_fosphor_init env env.fosphorAvailable cfg).1) := by
  refine ⟨?_, ?_, ?_⟩
  · intro env a h
    simp [mainEntry, import_block, h]
  · intro env h
    simp [import_block, h]
  · intro env cfg hf hs hstd
    rw [hf]
    refine ⟨?_, ?_, ?_, ?_, ?_⟩ <;>
      simp [rtlsdr_fosphor_init, hs, hstd, setup_standard_visualization,
        standardTrace, sourceTrace]

/-- Witness for C9: concrete environments with the osmosdr import
failing, respectively only the fosphor import failing. -/
theorem C9_required_vs_optional_capability_witness :
    mainEntry envNoOsmosdr argsRun = [Event.diag, Event.exitProc 1] ∧
    import_block envNoFosphor = Except.ok envNoFosphor.fosphorAvailable ∧
    (rtlsdr_fosphor_init envNoFosphor envNoFosphor.fosphorAvailable cfg0).2 = true ∧
    Event.qtSinkCreate ∉
      (rtlsdr_fosphor_init envNoFosphor envNoFosphor.fosphorAvailable cfg0).1 :=
  ⟨C9_required_vs_optional_capability.1 envNoOsmosdr argsRun rfl,
   C9_required_vs_optional_capability.2.1 envNoFosphor rfl,
   (C9_required_vs_optional_capability.2.2 envNoFosphor cfg0 rfl rfl rfl).1,
   (C9_required_vs_optional_capability.2.2 envNoFosphor cfg0 rfl rfl rfl).2.2.1⟩

/-- Environment in which the fosphor Qt sink construction raises but
the GLFW sink construction succeeds. -/
def envQtFail : Env := ⟨true, true, true, false, true, true, probeNone⟩

/-- C1: when the GPU capability is available and the Qt sink
construction raises, the resulting trace is the source setup, the Qt
sink attempt, then immediately the GLFW sink attempt, and only when
that also fails do the standard-visualization events follow — so the
GLFW variant is always tried before, and standard visualization only
after, both GPU constructions have failed. -/
theorem C1_gpu_fallback_ordering (env : Env) (cfg : Config)
    (hf : env.fosphorAvailable = true) (hs : env.sourceOk = true)
    (hq : env.qtSinkOk = false) :
    (rtlsdr_fosphor_init env env.fosphorAvailable cfg).1 =
      sourceTrace cfg ++ Event.qtSinkCreate :: Event.glfwSinkCreate ::
        (if env.glfwSinkOk then
          [Event.setFrequencyRange Block.fosphorGlfwSink cfg.center_freq cfg.samp_rate,
           Event.connect Block.rtlsdrSource Block.fosphorGlfwSink]
         else (setup_standard_visualization env cfg).1) := by
  rw [hf]
  cases hg : env.glfwSinkOk <;>
    simp [rtlsdr_fosphor_init, hs, hq, hg, setup_fosphor_visualization]

/-- Witness for C1: concrete run with the Qt sink failing and the GLFW
sink succeeding. -/
theorem C1_gpu_fallback_ordering_witness :
    (rtlsdr_fosphor_init envQtFail envQtFail.fosphorAvailable cfg0).1 =
      sourceTrace cfg0 ++ Event.qtSinkCreate :: Event.glfwSinkCreate ::
        (if envQtFail.glfwSinkOk then
          [Event.setFrequencyRange Block.fosphorGlfwSink cfg0.center_freq cfg0.samp_rate,
           Event.connect Block.rtlsdrSource Block.fosphorGlfwSink]
         else (setup_standard_visualization envQtFail cfg0).1) :=
  C1_gpu_fallback_ordering envQtFail cfg0 rfl rfl rfl

/-- C2: with the GPU capability unavailable, flowgraph construction
creates exactly one source, exactly one FFT display and exactly one
waterfall display, connects the source to both, and never invokes
either GPU sink constructor. -/
theorem C2_standard_path (env : Env) (cfg : Config)
    (hf : env.fosphorAvailable = false) (hs : env.sourceOk = true)
    (hstd : env.stdOk = true) :
    (rtlsdr_fosphor_init env env.fosphorAvailable cfg).1.countP isSourceCreate = 1 ∧
    (rtlsdr_fosphor_init env env.fosphorAvailable cfg).1.countP isFreqSinkCreate = 1 ∧
    (rtlsdr_fosphor_init env env.fosphorAvailable cfg).1.countP isWaterfallSinkCreate = 1 ∧
    Event.connect Block.rtlsdrSource Block.qtguiFreqSink ∈
      (rtlsdr_fosphor_init env env.fosphorAvailable cfg).1 ∧
    Event.connect Block.rtlsdrSource Block.qtguiWaterfallSink ∈
      (rtlsdr_fosphor_init env env.fosphorAvailable cfg).1 ∧
    Event.qtSinkCreate ∉ (rtlsdr_fosphor_init env env.fosphorAvailable cfg).1 ∧
    Event.glfwSinkCreate ∉ (rtlsdr_fosphor_init env env.fosphorAvailable cfg).1 := by
  rw [hf]
  refine ⟨?_, ?_, ?_, ?_, ?_, ?_, ?_⟩ <;>
    simp [rtlsdr_fosphor_init, hs, hstd, setup_standard_visualization,
      standardTrace, sourceTrace, isSourceCreate, isFreqSinkCreate,
      isWaterfallSinkCreate, List.countP_cons]

/-- Witness for C2 at the spec's concrete configuration with only the
GPU capability missing. -/
theorem C2_standard_path_witness :
    (rtlsdr_fosphor_init envNoFosphor envNoFosphor.fosphorAvailable cfg0).1.countP
      isSourceCreate = 1 ∧
    Event.connect Block.rtlsdrSource Block.qtguiFreqSink ∈
      (rtlsdr_fosphor_init envNoFosphor envNoFosphor.fosphorAvailable cfg0).1 ∧
    Event.connect Block.rtlsdrSource Block.qtguiWaterfallSink ∈
      (rtlsdr_fosphor_init envNoFosphor envNoFosphor.fosphorAvailable cfg0).1 ∧
    Event.qtSinkCreate ∉
      (rtlsdr_fosphor_init envNoFosphor envNoFosphor.fosphorAvailable cfg0).1 :=
  ⟨(C2_standard_path envNoFosphor cfg0 rfl rfl rfl).1,
   (C2_standard_path envNoFosphor cfg0 rfl rfl rfl).2.2.2.1,
   (C2_standard_path envNoFosphor cfg0 rfl rfl rfl).2.2.2.2.1,
   (C2_standard_path envNoFosphor cfg0 rfl rfl rfl).2.2.2.2.2.1⟩

/-- C6: in every flowgraph construction that reaches the setters, the
device index, sample rate, center frequency and gain of the Radio
Configuration are the values passed to `source(args=...)`,
`set_sample_rate`, `set_center_freq` and `set_gain` — and the only
such values in the whole trace. -/
theorem C6_config_passthrough (env : Env) (useFosphor : Bool) (cfg : Config)
    (hs : env.sourceOk = true) :
    (∀ v, Event.sourceCreate v ∈ (rtlsdr_fosphor_init env useFosphor cfg).1 ↔
      v = cfg.device_index) ∧
    (∀ v, Event.setSampleRate v ∈ (rtlsdr_fosphor_init env useFosphor cfg).1 ↔
      v = cfg.samp_rate) ∧
    (∀ v, Event.setCenterFreq v ∈ (rtlsdr_fosphor_init env useFosphor cfg).1 ↔
      v = cfg.center_freq) ∧
    (∀ v, Event.setGain v ∈ (rtlsdr_fosphor_init env useFosphor cfg).1 ↔
      v = cfg.gain) := by
  cases hq : env.qtSinkOk <;> cases hg : env.glfwSinkOk <;>
    cases hstd : env.stdOk <;> cases useFosphor <;>
      refine ⟨fun v => ?_, fun v => ?_, fun v => ?_, fun v => ?_⟩ <;>
        simp [rtlsdr_fosphor_init, hs, hq, hg, hstd, setup_fosphor_visualization,
          setup_standard_visualization, standardTrace, sourceTrace]

/-- Witness for C6 at the spec's concrete configuration. -/
theorem C6_config_passthrough_witness :
    (Event.sourceCreate 0 ∈ (rtlsdr_fosphor_init envAll true cfg0).1 ↔
      (0 : Nat) = cfg0.device_index) ∧
    (Event.setSampleRate 2000000 ∈ (rtlsdr_fosphor_init envAll true cfg0).1 ↔
      (2000000 : ℚ) = cfg0.samp_rate) ∧
    (Event.setCenterFreq 100000000 ∈ (rtlsdr_fosphor_init envAll true cfg0).1 ↔
      (100000000 : ℚ) = cfg0.center_freq) ∧
    (Event.setGain 20 ∈ (rtlsdr_fosphor_init envAll true cfg0).1 ↔
      (20 : ℚ) = cfg0.gain) :=
  ⟨(C6_config_passthrough envAll true cfg0 rfl).1 0,
   (C6_config_passthrough envAll true cfg0 rfl).2.1 2000000,
   (C6_config_passthrough envAll true cfg0 rfl).2.2.1 100000000,
   (C6_config_passthrough envAll true cfg0 rfl).2.2.2 20⟩

/-- Counterexample to C7 as stated: in the concrete run where the Qt
sink construction raises and the GLFW sink succeeds, the GLFW sink is
the chosen variant (it is connected to the source) yet the trace holds
no `addWidget` call at all — its surface is never embedded into the
main window layout. -/
theorem C7_counterexample :
    Event.connect Block.rtlsdrSource Block.fosphorGlfwSink ∈
      (setup_fosphor_visualization envQtFail cfg0).1 ∧
    (setup_fosphor_visualization envQtFail cfg0).1.countP isAddWidget = 0 := by
  decide

/-- C7 amended: the GPU primary (Qt) variant embeds its surface into
the vertically-stacked layout, and the standard variant embeds both of
its surfaces, but the GPU fallback (GLFW) variant is connected without
any embedding. -/
theorem C7_amended_embedding :
    (∀ (env : Env) (cfg : Config), env.qtSinkOk = true →
      Event.addWidget Widget.fosphorWin ∈ (setup_fosphor_visualization env cfg).1) ∧
    (∀ (env : Env) (cfg : Config), env.qtSinkOk = false → env.glfwSinkOk = true →
      (setup_fosphor_visualization env cfg).1.countP isAddWidget = 0) ∧
    (∀ (env : Env) (cfg : Config), env.stdOk = true →
      Event.addWidget Widget.freqSinkWin ∈ (setup_standard_visualization env cfg).1 ∧
      Event.addWidget Widget.waterfallSinkWin ∈
        (setup_standard_visualization env cfg).1) := by
  refine ⟨?_, ?_, ?_⟩
  · intro env cfg h
    simp [setup_fosphor_visualization, h]
  · intro env cfg hq hg
    simp [setup_fosphor_visualization, hq, hg, isAddWidget, List.countP_cons]
  · intro env cfg h
    constructor <;> simp [setup_standard_visualization, h, standardTrace]

/-- Witness for the amended C7 at concrete environments for each of the
three variants. -/
theorem C7_amended_embedding_witness :
    Event.addWidget Widget.fosphorWin ∈
      (setup_fosphor_visualization envAll cfg0).1 ∧
    (setup_fosphor_visualization envQtFail cfg0).1.countP isAddWidget = 0 ∧
    Event.addWidget Widget.freqSinkWin ∈
      (setup_standard_visualization envAll cfg0).1 :=
  ⟨C7_amended_embedding.1 envAll cfg0 rfl,
   C7_amended_embedding.2.1 envQtFail cfg0 rfl rfl,
   (C7_amended_embedding.2.2 envAll cfg0 rfl).1⟩
